import Mathlib

/-!
Verification of the ai-shell command-line assistant (src/ai.py) against its
natural-language specification.  The Python source is shallowly embedded:
pure logic becomes Lean functions, the file system and the environment become
explicit values threaded through the functions, fallible operations take
explicit success flags or return `Except`/`Option`.
-/

namespace AiShell

/-! ## String utilities

Python's `in`, `str.count`, `str.endswith` and friends, modelled over the
character lists underlying Lean strings so that everything reduces in the
kernel. -/

/-- Does `pat` occur at the very start of `text`? -/
def subAt : List Char → List Char → Bool
  | [], _ => true
  | _ :: _, [] => false
  | p :: ps, t :: ts => p == t && subAt ps ts

/-- Python `pat in text` (substring containment). -/
def containsSubList : List Char → List Char → Bool
  | [], pat => subAt pat []
  | t :: ts, pat => subAt pat (t :: ts) || containsSubList ts pat

/-- Python `pat in text` on strings. -/
def containsSub (text pat : String) : Bool :=
  containsSubList text.data pat.data

/-- Number of positions of `text` at which `pat` occurs. -/
def countOccList : List Char → List Char → Nat
  | [], pat => if subAt pat [] then 1 else 0
  | t :: ts, pat => (if subAt pat (t :: ts) then 1 else 0) + countOccList ts pat

/-- Number of positions of `text` at which `pat` occurs, on strings. -/
def countOcc (text pat : String) : Nat :=
  countOccList text.data pat.data

/-- Python `s.endswith(suffix)`: check the reversed suffix at the head of the
reversed string. -/
def strEndsWith (s suffix : String) : Bool :=
  subAt suffix.data.reverse s.data.reverse

/-- The decimal digit character for `n % 10` (the wildcard arm is reached
only for `n % 10 = 9`). -/
def digitChar (n : Nat) : Char :=
  match n % 10 with
  | 0 => '0'
  | 1 => '1'
  | 2 => '2'
  | 3 => '3'
  | 4 => '4'
  | 5 => '5'
  | 6 => '6'
  | 7 => '7'
  | 8 => '8'
  | _ => '9'

/-- Two-digit zero-padded decimal rendering of `n < 100`: the digits of
`n / 10` and `n % 10`, as produced by the `strftime` field formats `%m`,
`%d`, `%H`, `%M`, `%S` on their calendar domains. -/
def twoDigits (n : Nat) : String :=
  String.mk [digitChar (n / 10), digitChar n]

/-- Four-digit zero-padded decimal rendering of `n < 10000`: the digits of
`n / 1000`, `n / 100 % 10`, `n / 10 % 10` and `n % 10`, as produced by the
`strftime` field format `%Y` on realistic years. -/
def fourDigits (n : Nat) : String :=
  String.mk [digitChar (n / 1000), digitChar (n / 100), digitChar (n / 10), digitChar n]

/-- Lookup in an association list with string keys (a Python `dict` access
that returns `none` instead of raising `KeyError`). -/
def alookup {α : Type} : List (String × α) → String → Option α
  | [], _ => none
  | (k, v) :: rest, key => if k = key then some v else alookup rest key

/-! ## Data model

`CommandRecord` and `Session` are the typed shapes of the dictionaries built
by `interactive_mode` (src/ai.py lines 327-333 and 462-468). -/

structure CommandRecord where
  prompt : String
  command : String
  timestamp : String
  executed : Bool
  output : Option String
deriving Repr, DecidableEq

structure SessionMetadata where
  created_at : String
  updated_at : String
deriving Repr, DecidableEq

structure Session where
  commands : List CommandRecord
  metadata : SessionMetadata
deriving Repr, DecidableEq

/-- The value space of YAML documents produced by `yaml.dump` and read back by
`yaml.safe_load` for the data this program stores: null, booleans, integers,
strings, sequences and string-keyed mappings. -/
inductive Yaml where
  | null : Yaml
  | bool (b : Bool) : Yaml
  | int (n : Int) : Yaml
  | str (s : String) : Yaml
  | list (xs : List Yaml) : Yaml
  | map (kvs : List (String × Yaml)) : Yaml
deriving Repr

/-- On-disk content of a file in the history directory: either text that
`yaml.safe_load` parses to a value, or text it rejects with a parse error.
`yaml.dump` followed by `yaml.safe_load` is the identity on the safe value
space above, so a dumped file is modelled as `yamlDoc` of the dumped value. -/
inductive FileContent where
  | yamlDoc (v : Yaml) : FileContent
  | invalidYaml : FileContent

/-! ## Command generator (src/ai.py lines 57-94, `get_bash_command`) -/

/-- Outcome of `get_bash_command` up to the point where control would leave
the process: either the `ValueError` raised when the credential is missing
(before `anthropic.Anthropic(...)` is constructed), or the outbound request
(client constructed with the key, message sent with the prompt). -/
inductive GenOutcome where
  | configError (msg : String) : GenOutcome
  | remoteCall (apiKey : String) (prompt : String) : GenOutcome
deriving Repr, DecidableEq

/-- Error message of the `ValueError` raised at src/ai.py line 74. -/
def missingKeyMsg : String :=
  "ANTHROPIC_API_KEY not found. Please set it with: export ANTHROPIC_API_KEY=\x27your_api_key\x27"

/-- `get_bash_command` (src/ai.py lines 57-94).  `env_api_key` is
`os.environ.get("ANTHROPIC_API_KEY")`; Python's `if not api_key` treats a
missing variable and an empty string alike.  Only when the key is present does
the function construct the client and issue the request, modelled by the
`remoteCall` outcome. -/
def get_bash_command (env_api_key : Option String) (prompt_text : String) : GenOutcome :=
  match env_api_key with
  | none => .configError missingKeyMsg
  | some key => if key = "" then .configError missingKeyMsg else .remoteCall key prompt_text

/-! ## Command execution (src/ai.py lines 120-151, `execute_command`) -/

/-- Result of the opaque `subprocess.run` call. -/
structure RunResult where
  exitCode : Int
  stdout : String
  stderr : String
deriving Repr, DecidableEq

/-- `execute_command` (src/ai.py lines 120-151): `subprocess.run(...,
check=True)` raises `CalledProcessError` exactly when the exit status is
non-zero; the handler returns `False`, the success path returns `True`. -/
def execute_command (r : RunResult) : Bool :=
  r.exitCode == 0

/-! ## Buffer bridge (src/ai.py lines 153-198, 200-246) -/

/-- The process-external mutable state the bridge touches. -/
structure BufferEnv where
  buffer : Option String
  clipboard : Option String
  zshrc : Option String
deriving Repr, DecidableEq

/-- The integration marker substring checked by `detect_zsh_config`. -/
def MARKER : String :=
  "ai-shell-inject-buffer"

/-- `detect_zsh_config` (src/ai.py lines 187-198): `False` when `~/.zshrc`
does not exist or reading raises, otherwise substring containment of the
marker. -/
def detect_zsh_config (zshrc : Option String) : Bool :=
  match zshrc with
  | some content => containsSub content MARKER
  | none => false

/-- Result of `inject_to_zsh_buffer`: the external state left behind and the
returned boolean. -/
structure InjectResult where
  buffer : Option String
  clipboard : Option String
  ok : Bool
deriving Repr, DecidableEq

/-- `inject_to_zsh_buffer` (src/ai.py lines 153-185).  Inside one `try` block
it (a) writes the command to the buffer file, (b) copies it to the clipboard
via `pyperclip.copy`, then prints instructions tailored by
`detect_zsh_config` and returns `True`; any exception falls to the handler
which returns `False`.  `writeOk` and `clipOk` say whether the two fallible
effects succeed.  A clipboard exception arrives after the file write, so the
buffer file keeps the new command even on the `False` path. -/
def inject_to_zsh_buffer (command : String) (env : BufferEnv) (writeOk clipOk : Bool) :
    InjectResult :=
  if writeOk then
    if clipOk then
      { buffer := some command, clipboard := some command, ok := true }
    else
      { buffer := some command, clipboard := env.clipboard, ok := false }
  else
    { buffer := env.buffer, clipboard := env.clipboard, ok := false }

/-- `setup_zsh_integration` (src/ai.py lines 200-220): the fixed snippet
appended to `~/.zshrc`. -/
def setup_zsh_integration : String :=
  "\n# AI Shell ZSH integration\nfunction ai-shell-inject-buffer() \x7b\n    local cmd\n    if [[ -f \"$\x7bHOME\x7d/.ai_shell_buffer\" ]]; then\n        cmd=$(cat \"$\x7bHOME\x7d/.ai_shell_buffer\")\n        BUFFER=\"$\x7bcmd\x7d\"\n        zle redisplay\n    fi\n\x7d\n\nzle -N ai-shell-inject-buffer\nbindkey \x27^[i\x27 ai-shell-inject-buffer  # Alt+i\n"

/-- `install_zsh_integration` (src/ai.py lines 222-246).  If the marker is
already present it no-ops and returns `True`; otherwise it appends
`"\n" + setup_zsh_integration() + "\n"` in append mode (which creates a
missing file), returning `True`, or `False` if the write raises
(`writeOk = false`). -/
def install_zsh_integration (zshrc : Option String) (writeOk : Bool) :
    Option String × Bool :=
  if detect_zsh_config zshrc then (zshrc, true)
  else if writeOk then
    (some (zshrc.getD "" ++ "\n" ++ setup_zsh_integration ++ "\n"), true)
  else (zshrc, false)

/-! ## Session store (src/ai.py lines 248-308)

File-system access is modelled by an association list from paths to
`FileContent`; `os.path.expanduser` is left symbolic (paths keep their `~`
prefix, which is injective for the fixed paths used here). -/

/-- `HISTORY_DIR` (src/ai.py line 47). -/
def HISTORY_DIR : String :=
  "~/.ai_shell_history"

/-- A wall-clock reading, as carried by `datetime.datetime.now()`. -/
structure DateTime where
  year : Nat
  month : Nat
  day : Nat
  hour : Nat
  minute : Nat
  second : Nat
deriving Repr, DecidableEq

/-- `datetime.datetime.now().strftime("%Y%m%d_%H%M%S")` (src/ai.py line 260)
on the calendar domain of `datetime` values. -/
def strftime_compact (t : DateTime) : String :=
  fourDigits t.year ++ twoDigits t.month ++ twoDigits t.day ++ "_" ++
    twoDigits t.hour ++ twoDigits t.minute ++ twoDigits t.second

/-- The extension normalization applied by both `save_session` (src/ai.py
lines 263-264) and the `load` handler (lines 387-388): append `.yaml` unless
already present. -/
def normalizeYamlName (n : String) : String :=
  if strEndsWith n ".yaml" then n else n ++ ".yaml"

/-- Name resolution of `save_session` (src/ai.py lines 259-264): Python's
`if not session_name` treats `None` and the empty string alike, synthesizing
`session_<YYYYMMDD_HHMMSS>` from the current time, then the extension is
normalized. -/
def resolveSaveName (session_name : Option String) (now : DateTime) : String :=
  let base :=
    match session_name with
    | none => "session_" ++ strftime_compact now
    | some n => if n = "" then "session_" ++ strftime_compact now else n
  normalizeYamlName base

/-- `os.path.join(HISTORY_DIR, name)` for the relative names used here. -/
def joinHistory (name : String) : String :=
  HISTORY_DIR ++ "/" ++ name

/-- Overwrite (or create) the file at `path`. -/
def fsStore (fs : List (String × FileContent)) (path : String) (v : FileContent) :
    List (String × FileContent) :=
  (path, v) :: fs.filter (fun kv => kv.1 != path)

/-- `save_session` (src/ai.py lines 248-275): resolve the name, write the YAML
dump of `session_data` to the history directory, return the path; re-raise on
write failure (`writeOk = false`). -/
def save_session (fs : List (String × FileContent)) (session_data : Yaml)
    (session_name : Option String) (now : DateTime) (writeOk : Bool) :
    Except String (List (String × FileContent) × String) :=
  let session_path := joinHistory (resolveSaveName session_name now)
  if writeOk then .ok (fsStore fs session_path (.yamlDoc session_data), session_path)
  else .error ("Failed to save session: " ++ session_path)

/-- `load_session` (src/ai.py lines 277-294): open and `yaml.safe_load`; a
missing file or a parse failure raises (re-raised after logging). -/
def load_session (fs : List (String × FileContent)) (session_path : String) :
    Except String Yaml :=
  match alookup fs session_path with
  | none => .error ("[Errno 2] No such file or directory: " ++ session_path)
  | some .invalidYaml => .error ("could not parse YAML: " ++ session_path)
  | some (.yamlDoc v) => .ok v

/-- `list_sessions` (src/ai.py lines 296-308): `listing` is the outcome of
`os.listdir(HISTORY_DIR)` (`none` when it raises).  On failure the handler
returns `[]`; otherwise the `.yaml` entries are returned sorted (Python
`sorted` on strings is lexicographic by code point, as is Lean's order on
`String`). -/
def list_sessions (listing : Option (List String)) : List String :=
  match listing with
  | none => []
  | some entries =>
    (entries.filter (fun f => strEndsWith f ".yaml")).mergeSort (fun a b => decide (a ≤ b))

/-! ## YAML serialization of sessions

`interactive_mode` stores sessions as the dictionaries built at src/ai.py
lines 327-333 and 462-468; `encodeRecord`/`encodeSession` give their YAML
images, and `decodeRecord`/`decodeSession` read such a value back into the
typed shape (key-based dictionary access, insensitive to mapping order). -/

def yamlOfOptStr : Option String → Yaml
  | none => .null
  | some s => .str s

/-- YAML image of the `command_entry` dictionary (src/ai.py lines 462-468). -/
def encodeRecord (r : CommandRecord) : Yaml :=
  .map [("prompt", .str r.prompt), ("command", .str r.command),
        ("timestamp", .str r.timestamp), ("executed", .bool r.executed),
        ("output", yamlOfOptStr r.output)]

/-- YAML image of the `metadata` dictionary (src/ai.py lines 329-332). -/
def encodeMetadata (m : SessionMetadata) : Yaml :=
  .map [("created_at", .str m.created_at), ("updated_at", .str m.updated_at)]

/-- YAML image of the `current_session` dictionary (src/ai.py lines 327-333). -/
def encodeSession (s : Session) : Yaml :=
  .map [("commands", .list (s.commands.map encodeRecord)),
        ("metadata", encodeMetadata s.metadata)]

def decodeOptStr : Yaml → Option (Option String)
  | .null => some none
  | .str s => some (some s)
  | _ => none

/-- Read one command entry back from its YAML value. -/
def decodeRecord : Yaml → Option CommandRecord
  | .map kvs =>
    match alookup kvs "prompt", alookup kvs "command", alookup kvs "timestamp",
          alookup kvs "executed", alookup kvs "output" with
    | some (.str p), some (.str c), some (.str t), some (.bool e), some o =>
      match decodeOptStr o with
      | some out => some ⟨p, c, t, e, out⟩
      | none => none
    | _, _, _, _, _ => none
  | _ => none

def decodeRecords : List Yaml → Option (List CommandRecord)
  | [] => some []
  | y :: ys =>
    match decodeRecord y, decodeRecords ys with
    | some r, some rs => some (r :: rs)
    | _, _ => none

def decodeMetadata : Yaml → Option SessionMetadata
  | .map kvs =>
    match alookup kvs "created_at", alookup kvs "updated_at" with
    | some (.str c), some (.str u) => some ⟨c, u⟩
    | _, _ => none
  | _ => none

/-- Read a whole session back from its YAML value. -/
def decodeSession : Yaml → Option Session
  | .map kvs =>
    match alookup kvs "commands", alookup kvs "metadata" with
    | some (.list ys), some m =>
      match decodeRecords ys, decodeMetadata m with
      | some rs, some md => some ⟨rs, md⟩
      | _, _ => none
    | _, _ => none
  | _ => none

/-! ## Interactive mode (src/ai.py lines 310-538)

Each handler of the read-eval loop is embedded as a function of the state it
touches.  The live `current_session` variable is dynamically typed in Python
and the `load` handler can leave a non-session value in it, so handlers that
must be faithful to that are stated over `Yaml`; the structured mutations of
a well-formed live session are stated over `Session`. -/

/-- The fresh `command_entry` dictionary (src/ai.py lines 462-468). -/
def mkCommandEntry (user_input bash_command now : String) : CommandRecord :=
  { prompt := user_input, command := bash_command, timestamp := now,
    executed := false, output := none }

/-- Lines 469-470: `current_session['commands'].append(command_entry)` then
`current_session['metadata']['updated_at'] = ...now...`. -/
def appendEntry (s : Session) (r : CommandRecord) (now : String) : Session :=
  { commands := s.commands ++ [r],
    metadata := { s.metadata with updated_at := now } }

/-- Python `current_session['commands'][-1]` mutation: replace the last
record by `f` of it.  All call sites run just after an append, so the list is
never empty there; on an empty list Python would raise `IndexError`. -/
def updateLast (s : Session) (f : CommandRecord → CommandRecord) : Session :=
  match s.commands.getLast? with
  | none => s
  | some r => { s with commands := s.commands.dropLast ++ [f r] }

/-- Line 491: `current_session['commands'][-1]['command'] = edited_command`.
No timestamp is refreshed here. -/
def editLastCommand (s : Session) (edited : String) : Session :=
  updateLast s (fun r => { r with command := edited })

/-- Lines 509 and 521: `current_session['commands'][-1]['executed'] = True`,
written unconditionally after `execute_command` returns.  No timestamp is
refreshed here. -/
def markLastExecuted (s : Session) : Session :=
  updateLast s (fun r => { r with executed := true })

/-- Line 375: the `save` handler refreshes `updated_at` before saving. -/
def refreshUpdatedAt (s : Session) (now : String) : Session :=
  { s with metadata := { s.metadata with updated_at := now } }

/-- The operator inputs consumed by one pass of the review block
(src/ai.py lines 480-521): the menu choice, the edited text returned by
`edit_command` when the choice is `e`, and the sub-menu choice after an
edit. -/
structure OperatorInput where
  choice : String
  editedCommand : String
  subChoice : String
deriving Repr, DecidableEq

/-- The review block of `interactive_mode` (src/ai.py lines 480-521), acting
on the session after the entry was appended.  `runOk` is the boolean
`execute_command` returns; the code binds it to `result` and never reads it:
`executed` is set to `True` whenever a run is chosen, regardless of the
outcome.  Any choice outside `e`/`c`/`b`/`r` falls through (skip). -/
def reviewCommand (s : Session) (inp : OperatorInput) (runOk : Bool) : Session :=
  if inp.choice = "e" then
    let s1 := editLastCommand s inp.editedCommand
    if inp.subChoice = "c" then s1
    else if inp.subChoice = "b" then s1
    else if inp.subChoice = "r" then markLastExecuted s1
    else s1
  else if inp.choice = "c" then s
  else if inp.choice = "b" then s
  else if inp.choice = "r" then
    markLastExecuted s
  else s

/-- One full free-text iteration of `interactive_mode` (src/ai.py lines
449-524): generate, append the entry (refreshing `updated_at`), then run the
review block. -/
def processPrompt (s : Session) (user_input bash_command now : String)
    (inp : OperatorInput) (runOk : Bool) : Session :=
  reviewCommand (appendEntry s (mkCommandEntry user_input bash_command now) now) inp runOk

/-- Whether the display loop after a successful load (src/ai.py lines
398-402) completes without raising: `current_session['commands']` must be
subscriptable and iterable, and every element must be a mapping carrying
`prompt` and `command`.  Iterating an empty string or an empty mapping
executes the body zero times and also completes. -/
def displayableSession (y : Yaml) : Bool :=
  match y with
  | .map kvs =>
    match alookup kvs "commands" with
    | some (.list cmds) =>
      cmds.all fun c =>
        match c with
        | .map ckvs => (alookup ckvs "prompt").isSome && (alookup ckvs "command").isSome
        | _ => false
    | some (.str s) => s = ""
    | some (.map kvs2) => kvs2.isEmpty
    | _ => false
  | _ => false

/-- The `load` handler of `interactive_mode` (src/ai.py lines 380-405):
normalize the name, call `load_session` inside `try`; on a raise the handler
prints the failure and `current_session` is untouched; on success
`current_session` is replaced first and the display loop runs afterwards
inside the same `try`, so a display failure is also caught as a load failure
but the replacement persists.  Returns the new live value and whether the
handler completed without a caught exception. -/
def handleLoadCommand (fs : List (String × FileContent)) (session_name : String)
    (cur : Yaml) : Yaml × Bool :=
  let session_path := joinHistory (normalizeYamlName session_name)
  match load_session fs session_path with
  | .error _ => (cur, false)
  | .ok v => (v, displayableSession v)

/-! ## Menu prompts (src/ai.py lines 480-521 and 620-685)

Each prompt site classifies the operator's lowercased input line.  Only the
single-shot top menu sits in a `while True` loop that re-prompts on
unrecognized input; the other prompts consume the line once. -/

/-- Reaction of the single-shot top menu (src/ai.py lines 627-685) to one
input line. -/
inductive MainAction where
  | run : MainAction
  | cancel : MainAction
  | edit : MainAction
  | copy : MainAction
  | buffer : MainAction
  | invalid : MainAction
deriving Repr, DecidableEq

def classifyMainChoice (choice : String) : MainAction :=
  if choice = "y" then .run
  else if choice = "n" then .cancel
  else if choice = "e" then .edit
  else if choice = "c" then .copy
  else if choice = "b" then .buffer
  else .invalid

/-- The `while True` loop around the single-shot top menu: unrecognized input
prints an error and re-prompts; the first recognized input decides.  `none`
means the supplied input lines ran out with the loop still prompting. -/
def mainMenuLoop : List String → Option MainAction
  | [] => none
  | c :: rest =>
    match classifyMainChoice c with
    | .invalid => mainMenuLoop rest
    | a => some a

/-- Reaction of the single-shot edit sub-menu (src/ai.py lines 653-669) to
one input line: the trailing `else` treats anything but `y`/`c`/`b` as
cancellation. -/
inductive SubAction where
  | run : SubAction
  | copy : SubAction
  | buffer : SubAction
  | cancel : SubAction
deriving Repr, DecidableEq

def classifyMainSubChoice (c : String) : SubAction :=
  if c = "y" then .run
  else if c = "c" then .copy
  else if c = "b" then .buffer
  else .cancel

/-- Reaction of the interactive review menu (src/ai.py lines 480-521) to one
input line: there is no loop and no trailing error branch, so anything but
`e`/`c`/`b`/`r` silently skips the command. -/
inductive ReviewAction where
  | edit : ReviewAction
  | copy : ReviewAction
  | buffer : ReviewAction
  | run : ReviewAction
  | skip : ReviewAction
deriving Repr, DecidableEq

def classifyReviewChoice (c : String) : ReviewAction :=
  if c = "e" then .edit
  else if c = "c" then .copy
  else if c = "b" then .buffer
  else if c = "r" then .run
  else .skip

/-! ## Helper lemmas -/

theorem updateLast_concat (xs : List CommandRecord) (m : SessionMetadata)
    (r : CommandRecord) (f : CommandRecord → CommandRecord) :
    updateLast ⟨xs ++ [r], m⟩ f = ⟨xs ++ [f r], m⟩ := by
  unfold updateLast
  simp [List.getLast?_concat, List.dropLast_concat]

theorem updateLast_metadata (s : Session) (f : CommandRecord → CommandRecord) :
    (updateLast s f).metadata = s.metadata := by
  unfold updateLast
  split <;> rfl

theorem updateLast_length (s : Session) (f : CommandRecord → CommandRecord) :
    (updateLast s f).commands.length = s.commands.length := by
  unfold updateLast
  split
  · rfl
  · rename_i r h
    have hne : s.commands ≠ [] := by
      intro hnil
      rw [hnil] at h
      simp at h
    have hpos : 0 < s.commands.length := List.length_pos.mpr hne
    simp [List.length_dropLast]
    omega

theorem updateLast_dropLast (s : Session) (f : CommandRecord → CommandRecord) :
    (updateLast s f).commands.dropLast = s.commands.dropLast := by
  unfold updateLast
  split
  · rfl
  · simp [List.dropLast_concat]

/-- Closed form of the record the review block leaves at the end of the
commands list: edits replace the text, and choosing run (directly or after an
edit) sets `executed`, independently of the run outcome. -/
def finalRecord (e : CommandRecord) (inp : OperatorInput) : CommandRecord :=
  if inp.choice = "e" then
    let e1 := { e with command := inp.editedCommand }
    if inp.subChoice = "r" then { e1 with executed := true } else e1
  else if inp.choice = "r" then { e with executed := true }
  else e

theorem reviewCommand_concat (xs : List CommandRecord) (m : SessionMetadata)
    (e : CommandRecord) (inp : OperatorInput) (runOk : Bool) :
    reviewCommand ⟨xs ++ [e], m⟩ inp runOk = ⟨xs ++ [finalRecord e inp], m⟩ := by
  unfold reviewCommand finalRecord editLastCommand markLastExecuted
  split_ifs <;> simp_all [updateLast_concat]

/-! ## Claim C8 -/

/-- C8: for every prompt text, when the credential environment variable is
absent `get_bash_command` raises the configuration failure before any network
call: the outcome is `configError` and in particular not a `remoteCall`, so no
client is constructed and no request is issued. -/
theorem C8_generator_aborts_without_credential (prompt_text : String) :
    get_bash_command none prompt_text = GenOutcome.configError missingKeyMsg := by
  rfl

/-! ## Claim C2 -/

/-- C2 counterexample: with a successful buffer-file write and a failing
clipboard copy, `inject_to_zsh_buffer` returns `false` even though the buffer
file holds the command — the clipboard copy sits inside the same `try` block,
so its failure alone flips the return value to `false`, contradicting the
claim that the result is `true` exactly when the file write completes. -/
theorem C2_cx_clipboard_failure_returns_false :
    (inject_to_zsh_buffer "ls -la" ⟨none, none, none⟩ true false).ok = false ∧
    (inject_to_zsh_buffer "ls -la" ⟨none, none, none⟩ true false).buffer = some "ls -la" := by
  decide

/-- C2 amended: `inject_to_zsh_buffer` returns `true` exactly when both the
buffer-file write and the clipboard copy complete; the buffer file is updated
exactly when the write completes, even on the `false` path. -/
theorem C2_publish_requires_write_and_clipboard (cmd : String) (env : BufferEnv)
    (w c : Bool) :
    (inject_to_zsh_buffer cmd env w c).ok = (w && c) ∧
    (inject_to_zsh_buffer cmd env w c).buffer = (if w then some cmd else env.buffer) := by
  cases w <;> cases c <;> simp [inject_to_zsh_buffer]

/-! ## Claim C4 -/

/-- C4 counterexample: editing the last record's command mutates the session
but does not refresh `metadata.updated_at`, contradicting the claim that
every mutation refreshes it. -/
theorem C4_cx_edit_does_not_refresh :
    (editLastCommand ⟨[⟨"p", "ls", "t0", false, none⟩], ⟨"t0", "t0"⟩⟩ "pwd").metadata.updated_at
        = "t0" ∧
    editLastCommand ⟨[⟨"p", "ls", "t0", false, none⟩], ⟨"t0", "t0"⟩⟩ "pwd"
        ≠ ⟨[⟨"p", "ls", "t0", false, none⟩], ⟨"t0", "t0"⟩⟩ := by
  decide

/-- C4 amended: appending a record refreshes `updated_at` and appends at the
end (insertion order preserved, append-only), and the explicit `save` handler
refreshes `updated_at`; but editing the last record's command and flipping
its `executed` flag leave `updated_at` untouched.  Those two in-place edits
also keep the sequence structure (same length, same preceding records). -/
theorem C4_append_refreshes_but_edits_do_not (s : Session) (r : CommandRecord)
    (now edited : String) :
    (appendEntry s r now).metadata.updated_at = now ∧
    (appendEntry s r now).commands = s.commands ++ [r] ∧
    (refreshUpdatedAt s now).metadata.updated_at = now ∧
    (editLastCommand s edited).metadata.updated_at = s.metadata.updated_at ∧
    (markLastExecuted s).metadata.updated_at = s.metadata.updated_at ∧
    (editLastCommand s edited).commands.length = s.commands.length ∧
    (markLastExecuted s).commands.length = s.commands.length ∧
    (editLastCommand s edited).commands.dropLast = s.commands.dropLast ∧
    (markLastExecuted s).commands.dropLast = s.commands.dropLast := by
  refine ⟨rfl, rfl, rfl, ?_, ?_, ?_, ?_, ?_, ?_⟩
  · exact congrArg SessionMetadata.updated_at (updateLast_metadata s _)
  · exact congrArg SessionMetadata.updated_at (updateLast_metadata s _)
  · exact updateLast_length s _
  · exact updateLast_length s _
  · exact updateLast_dropLast s _
  · exact updateLast_dropLast s _

/-! ## Claim C1 -/

/-- C1 counterexample: the operator chooses run (`r`) and the execution fails
(`runOk = false`, a non-zero exit status), yet the record's `executed` flag
is `true` — src/ai.py line 521 sets it unconditionally, ignoring the boolean
returned by `execute_command`, contradicting the claim that `executed`
becomes true only on a successful run. -/
theorem C1_cx_executed_true_on_failed_run :
    ((processPrompt ⟨[], ⟨"t0", "t0"⟩⟩ "list files" "ls" "t1" ⟨"r", "", ""⟩ false).commands.map
        CommandRecord.executed) = [true] := by
  decide

/-- C1 amended: the record's `executed` flag ends up `true` exactly when a
run is chosen — choice `r`, or choice `e` followed by sub-choice `r` — and
this is independent of whether the execution succeeds (`runOk` is ignored).
If no run is chosen, `executed` stays false. -/
theorem C1_executed_iff_run_chosen (s : Session) (ui bc now : String)
    (inp : OperatorInput) (runOk : Bool) :
    ∃ r : CommandRecord,
      (processPrompt s ui bc now inp runOk).commands.getLast? = some r ∧
      r.prompt = ui ∧
      (r.executed = true ↔ inp.choice = "r" ∨ inp.choice = "e" ∧ inp.subChoice = "r") := by
  refine ⟨finalRecord (mkCommandEntry ui bc now) inp, ?_, ?_, ?_⟩
  · unfold processPrompt appendEntry
    rw [reviewCommand_concat]
    exact List.getLast?_concat _
  · unfold finalRecord mkCommandEntry
    split_ifs <;> rfl
  · unfold finalRecord mkCommandEntry
    split_ifs with h1 h2 h3 <;> simp_all

/-! ## Claim C3 -/

/-- C3 counterexample: the invalid input `z` does not self-loop at every
prompt.  At the single-shot edit sub-menu (src/ai.py lines 653-669) the
trailing `else` treats `z` as cancellation, and at the interactive review
menu (lines 480-521) `z` falls through and skips the command; neither site
re-displays its menu. -/
theorem C3_cx_invalid_input_is_not_a_self_loop :
    classifyMainSubChoice "z" = SubAction.cancel ∧
    classifyReviewChoice "z" = ReviewAction.skip := by
  decide

/-- C3 amended: only the single-shot top menu re-prompts on an unrecognized
input (a genuine self-loop); the single-shot edit sub-menu treats any input
other than `y`/`c`/`b` as cancel, and the interactive review menu treats any
input other than `e`/`c`/`b`/`r` as skip.  In all cases the session state is
not mutated by the unrecognized input. -/
theorem C3_invalid_input_behavior (c : String) (rest : List String) (s : Session)
    (ec sc : String) (runOk : Bool)
    (hy : c ≠ "y") (hn : c ≠ "n") (he : c ≠ "e") (hc : c ≠ "c") (hb : c ≠ "b")
    (hr : c ≠ "r") :
    mainMenuLoop (c :: rest) = mainMenuLoop rest ∧
    classifyMainSubChoice c = SubAction.cancel ∧
    classifyReviewChoice c = ReviewAction.skip ∧
    reviewCommand s ⟨c, ec, sc⟩ runOk = s := by
  refine ⟨?_, ?_, ?_, ?_⟩
  · simp [mainMenuLoop, classifyMainChoice, hy, hn, he, hc, hb]
  · simp [classifyMainSubChoice, hy, hc, hb]
  · simp [classifyReviewChoice, he, hc, hb, hr]
  · simp [reviewCommand, he, hc, hb, hr]

/-- C3 amended, witness at the concrete invalid input `q`. -/
theorem C3_invalid_input_behavior_witness :
    mainMenuLoop ["q"] = mainMenuLoop [] ∧
    classifyMainSubChoice "q" = SubAction.cancel ∧
    classifyReviewChoice "q" = ReviewAction.skip ∧
    reviewCommand ⟨[⟨"p", "ls", "t0", false, none⟩], ⟨"t0", "t0"⟩⟩ ⟨"q", "", ""⟩ true
      = ⟨[⟨"p", "ls", "t0", false, none⟩], ⟨"t0", "t0"⟩⟩ :=
  C3_invalid_input_behavior "q" [] ⟨[⟨"p", "ls", "t0", false, none⟩], ⟨"t0", "t0"⟩⟩ "" "" true
    (by decide) (by decide) (by decide) (by decide) (by decide) (by decide)

/-! ## Claim C6 -/

theorem containsSubList_append_right (xs ys pat : List Char)
    (h : containsSubList ys pat = true) : containsSubList (xs ++ ys) pat = true := by
  induction xs with
  | nil => simpa using h
  | cons x xs ih =>
    show (subAt pat (x :: (xs ++ ys)) || containsSubList (xs ++ ys) pat) = true
    rw [ih]
    simp

set_option maxRecDepth 100000 in
theorem marker_in_snippet :
    containsSubList ((setup_zsh_integration ++ "\n").data) MARKER.data = true := by
  decide

theorem marker_in_appended (a : String) :
    containsSub (a ++ "\n" ++ setup_zsh_integration ++ "\n") MARKER = true := by
  have hdata : (a ++ "\n" ++ setup_zsh_integration ++ "\n").data
      = (a ++ "\n").data ++ (setup_zsh_integration ++ "\n").data := by
    simp [String.data_append]
  rw [containsSub, hdata]
  exact containsSubList_append_right _ _ _ marker_in_snippet

set_option maxRecDepth 1000000 in
/-- C6 counterexample: starting from a missing (or empty) configuration file,
installing twice leaves the marker string appearing exactly three times, not
once — the appended snippet itself names `ai-shell-inject-buffer` three times
(function definition, `zle -N` registration, `bindkey` binding). -/
theorem C6_cx_marker_appears_three_times :
    countOcc ((install_zsh_integration (install_zsh_integration none true).1 true).1.getD "")
        MARKER = 3 := by
  decide

/-- C6 amended: `install_zsh_integration` is idempotent on the configuration
file content — the second invocation detects the marker and appends nothing,
so two invocations leave exactly the content of one — but the marker then
appears three times (once per use in the snippet), not once, when starting
from a marker-free file. -/
theorem C6_install_idempotent_on_content (zshrc : Option String) (w : Bool) :
    (install_zsh_integration (install_zsh_integration zshrc w).1 w).1
      = (install_zsh_integration zshrc w).1 := by
  by_cases hd : detect_zsh_config zshrc = true
  · simp [install_zsh_integration, hd]
  · cases w
    · simp [install_zsh_integration, hd]
    · simp only [install_zsh_integration, hd, Bool.false_eq_true, if_false, if_true]
      simp [detect_zsh_config, marker_in_appended]

/-! ## Claim C5 -/

theorem decodeRecord_encodeRecord (r : CommandRecord) :
    decodeRecord (encodeRecord r) = some r := by
  cases r with
  | mk p c t e o => cases o <;> rfl

theorem decodeRecords_map_encode (l : List CommandRecord) :
    decodeRecords (l.map encodeRecord) = some l := by
  induction l with
  | nil => rfl
  | cons r rs ih =>
    show decodeRecords (encodeRecord r :: rs.map encodeRecord) = some (r :: rs)
    unfold decodeRecords
    rw [decodeRecord_encodeRecord, ih]

theorem decodeMetadata_encodeMetadata (m : SessionMetadata) :
    decodeMetadata (encodeMetadata m) = some m := by
  cases m
  rfl

theorem decodeSession_encodeSession (S : Session) :
    decodeSession (encodeSession S) = some S := by
  cases S with
  | mk cs m =>
    show decodeSession (.map [("commands", .list (cs.map encodeRecord)),
        ("metadata", encodeMetadata m)]) = some ⟨cs, m⟩
    unfold decodeSession
    simp [alookup, decodeRecords_map_encode, decodeMetadata_encodeMetadata]

theorem alookup_store_hit (fs : List (String × FileContent)) (path : String)
    (v : FileContent) : alookup (fsStore fs path v) path = some v := by
  simp [fsStore, alookup]

/-- C5: saving a session (with any non-empty commands sequence) and loading
the produced file yields the session's YAML image back, and reading that
image returns the session exactly — every record, in order, field by field. -/
theorem C5_save_load_roundtrip (fs : List (String × FileContent)) (S : Session)
    (name : Option String) (now : DateTime) (hne : S.commands ≠ []) :
    ∃ fs2 path,
      save_session fs (encodeSession S) name now true = .ok (fs2, path) ∧
      load_session fs2 path = .ok (encodeSession S) ∧
      decodeSession (encodeSession S) = some S := by
  refine ⟨_, _, rfl, ?_, decodeSession_encodeSession S⟩
  unfold load_session
  rw [alookup_store_hit]

/-- C5 witness: the round trip evaluated at a concrete one-record session. -/
theorem C5_save_load_roundtrip_witness :
    ([⟨"list files", "ls -la", "2025-01-02T03:04:05", false, none⟩] :
        List CommandRecord) ≠ [] ∧
    ∃ fs2 path,
      save_session []
          (encodeSession ⟨[⟨"list files", "ls -la", "2025-01-02T03:04:05", false, none⟩],
            ⟨"2025-01-02T03:04:05", "2025-01-02T03:04:06"⟩⟩)
          (some "demo") ⟨2025, 1, 2, 3, 4, 5⟩ true = .ok (fs2, path) ∧
      load_session fs2 path
        = .ok (encodeSession ⟨[⟨"list files", "ls -la", "2025-01-02T03:04:05", false, none⟩],
            ⟨"2025-01-02T03:04:05", "2025-01-02T03:04:06"⟩⟩) ∧
      decodeSession (encodeSession ⟨[⟨"list files", "ls -la", "2025-01-02T03:04:05", false,
            none⟩], ⟨"2025-01-02T03:04:05", "2025-01-02T03:04:06"⟩⟩)
        = some ⟨[⟨"list files", "ls -la", "2025-01-02T03:04:05", false, none⟩],
            ⟨"2025-01-02T03:04:05", "2025-01-02T03:04:06"⟩⟩ :=
  ⟨by decide,
   C5_save_load_roundtrip []
     ⟨[⟨"list files", "ls -la", "2025-01-02T03:04:05", false, none⟩],
       ⟨"2025-01-02T03:04:05", "2025-01-02T03:04:06"⟩⟩
     (some "demo") ⟨2025, 1, 2, 3, 4, 5⟩ (by decide)⟩

/-! ## Claim C7 -/

/-- C7 counterexample: a present file whose text parses as the YAML integer
`42` — malformed as a session — makes the handler surface a failure, yet the
live in-memory session has already been replaced by `42`: the assignment at
src/ai.py line 394 happens before the display loop raises inside the same
`try` block. -/
theorem C7_cx_malformed_load_clobbers_session :
    handleLoadCommand [(joinHistory "bad.yaml", .yamlDoc (.int 42))] "bad"
        (encodeSession ⟨[], ⟨"t0", "t0"⟩⟩)
      = (.int 42, false) ∧
    Yaml.int 42 ≠ encodeSession ⟨[], ⟨"t0", "t0"⟩⟩ := by
  constructor
  · rfl
  · intro h
    exact Yaml.noConfusion h

/-- C7 amended: when `load_session` itself raises (missing file or YAML parse
failure) the failure is surfaced and the live session is untouched; but when
the file parses to a YAML value, that value replaces the live session
unconditionally, and the handler reports failure afterwards exactly when the
value cannot be displayed as a session. -/
theorem C7_failed_load_behavior (fs : List (String × FileContent)) (name : String)
    (cur : Yaml) :
    (∀ msg, load_session fs (joinHistory (normalizeYamlName name)) = .error msg →
        handleLoadCommand fs name cur = (cur, false)) ∧
    (∀ v, load_session fs (joinHistory (normalizeYamlName name)) = .ok v →
        handleLoadCommand fs name cur = (v, displayableSession v)) := by
  constructor
  · intro msg h
    simp [handleLoadCommand, h]
  · intro v h
    simp [handleLoadCommand, h]

/-- C7 amended, witness: loading a missing file from an empty history leaves
the live session untouched and reports failure. -/
theorem C7_failed_load_behavior_witness :
    handleLoadCommand [] "x" Yaml.null = (Yaml.null, false) :=
  (C7_failed_load_behavior [] "x" Yaml.null).1
    ("[Errno 2] No such file or directory: " ++ joinHistory (normalizeYamlName "x")) rfl

/-! ## Claim C9 -/

theorem twoDigits_data (n : Nat) :
    (twoDigits n).data = [digitChar (n / 10), digitChar n] := rfl

theorem fourDigits_data (n : Nat) :
    (fourDigits n).data
      = [digitChar (n / 1000), digitChar (n / 100), digitChar (n / 10), digitChar n] := rfl

theorem beq_l_digitChar (n : Nat) : (('l' : Char) == digitChar n) = false := by
  unfold digitChar
  generalize n % 10 = m
  match m with
  | 0 => rfl
  | 1 => rfl
  | 2 => rfl
  | 3 => rfl
  | 4 => rfl
  | 5 => rfl
  | 6 => rfl
  | 7 => rfl
  | 8 => rfl
  | k + 9 => rfl

theorem yaml_rev_data : (".yaml" : String).data.reverse = ['l', 'm', 'a', 'y', '.'] := rfl

/-- A string whose last character is a decimal digit does not end in
`.yaml`. -/
theorem strEndsWith_yaml_eq_false (s : String) (d : Nat) (rest : List Char)
    (h : s.data.reverse = digitChar d :: rest) :
    strEndsWith s ".yaml" = false := by
  unfold strEndsWith
  rw [h, yaml_rev_data]
  show (('l' == digitChar d) && subAt ['m', 'a', 'y', '.'] rest) = false
  rw [beq_l_digitChar]
  rfl

theorem subAt_append_self (p t : List Char) : subAt p (p ++ t) = true := by
  induction p with
  | nil => rfl
  | cons c cs ih =>
    show (c == c && subAt cs (cs ++ t)) = true
    simp [ih]

theorem strEndsWith_append_yaml (n : String) :
    strEndsWith (n ++ ".yaml") ".yaml" = true := by
  unfold strEndsWith
  rw [String.data_append, List.reverse_append]
  exact subAt_append_self _ _

theorem auto_name_not_yaml (now : DateTime) :
    strEndsWith ("session_" ++ strftime_compact now) ".yaml" = false := by
  apply strEndsWith_yaml_eq_false _ now.second
  simp [strftime_compact, String.data_append, twoDigits_data, fourDigits_data,
    List.reverse_append]
  rfl

/-- C9: with no name (or the empty name, which Python's `if not session_name`
treats the same), `save_session` synthesizes `session_<YYYYMMDD_HHMMSS>.yaml`
from the current timestamp; any supplied name lacking the `.yaml` extension
gets it appended and a name already carrying it is unchanged; the same
normalization runs in the interactive `load` handler, so loading a bare name
and loading its normalized form consult the same path; and the saved path is
the history directory joined with the resolved name. -/
theorem C9_session_naming (now : DateTime) (n : String) (hn : n ≠ "")
    (fs : List (String × FileContent)) (y : Yaml) (name : Option String) (cur : Yaml) :
    resolveSaveName none now = "session_" ++ strftime_compact now ++ ".yaml" ∧
    resolveSaveName (some "") now = "session_" ++ strftime_compact now ++ ".yaml" ∧
    resolveSaveName (some n) now = normalizeYamlName n ∧
    (strEndsWith n ".yaml" = false → normalizeYamlName n = n ++ ".yaml") ∧
    (strEndsWith n ".yaml" = true → normalizeYamlName n = n) ∧
    handleLoadCommand fs n cur = handleLoadCommand fs (normalizeYamlName n) cur ∧
    save_session fs y name now true
      = .ok (fsStore fs (joinHistory (resolveSaveName name now)) (.yamlDoc y),
             joinHistory (resolveSaveName name now)) := by
  have hnorm : ∀ m : String, strEndsWith m ".yaml" = false →
      normalizeYamlName m = m ++ ".yaml" := by
    intro m hm
    simp [normalizeYamlName, hm]
  have hkeep : ∀ m : String, strEndsWith m ".yaml" = true →
      normalizeYamlName m = m := by
    intro m hm
    simp [normalizeYamlName, hm]
  have hidem : normalizeYamlName (normalizeYamlName n) = normalizeYamlName n := by
    by_cases hy : strEndsWith n ".yaml" = true
    · rw [hkeep n hy, hkeep n hy]
    · rw [hnorm n (by simpa using hy)]
      exact hkeep _ (strEndsWith_append_yaml n)
  refine ⟨?_, ?_, ?_, hnorm n, hkeep n, ?_, rfl⟩
  · simp [resolveSaveName, hnorm _ (auto_name_not_yaml now)]
  · simp [resolveSaveName, hnorm _ (auto_name_not_yaml now)]
  · simp [resolveSaveName, normalizeYamlName, hn]
  · unfold handleLoadCommand
    rw [hidem]

/-- C9 witness at concrete inputs: for 2025-01-02 03:04:05 the rendered
timestamp is `20250102_030405` and the no-name save resolves to
`session_20250102_030405.yaml`; a bare name gains the extension and a name
already carrying it is unchanged. -/
theorem C9_session_naming_witness :
    strftime_compact ⟨2025, 1, 2, 3, 4, 5⟩ = "20250102_030405" ∧
    resolveSaveName none ⟨2025, 1, 2, 3, 4, 5⟩ = "session_20250102_030405.yaml" ∧
    resolveSaveName none ⟨2025, 1, 2, 3, 4, 5⟩
        = "session_" ++ strftime_compact ⟨2025, 1, 2, 3, 4, 5⟩ ++ ".yaml" ∧
    resolveSaveName (some "demo") ⟨2025, 1, 2, 3, 4, 5⟩ = normalizeYamlName "demo" ∧
    normalizeYamlName "demo" = "demo" ++ ".yaml" ∧
    normalizeYamlName "demo.yaml" = "demo.yaml" :=
  ⟨by decide,
   by decide,
   (C9_session_naming ⟨2025, 1, 2, 3, 4, 5⟩ "demo" (by decide) [] Yaml.null none
      Yaml.null).1,
   (C9_session_naming ⟨2025, 1, 2, 3, 4, 5⟩ "demo" (by decide) [] Yaml.null none
      Yaml.null).2.2.1,
   (C9_session_naming ⟨2025, 1, 2, 3, 4, 5⟩ "demo" (by decide) [] Yaml.null none
      Yaml.null).2.2.2.1 (by decide),
   (C9_session_naming ⟨2025, 1, 2, 3, 4, 5⟩ "demo.yaml" (by decide) [] Yaml.null none
      Yaml.null).2.2.2.2.1 (by decide)⟩

/-! ## Claim C10 -/

/-- C10: `list_sessions` is total — a failing directory listing yields `[]`
just like a listing without `.yaml` entries, the two being indistinguishable
to the caller — and on a successful listing it returns exactly the `.yaml`
entries (a permutation of the filter), lexicographically sorted. -/
theorem C10_list_sessions_total_sorted (entries : List String)
    (h : ∀ f ∈ entries, strEndsWith f ".yaml" = false) :
    list_sessions none = [] ∧
    list_sessions (some entries) = [] ∧
    ∀ es : List String,
      (list_sessions (some es)).Perm (es.filter (fun f => strEndsWith f ".yaml")) ∧
      (list_sessions (some es)).Pairwise (· ≤ ·) := by
  refine ⟨rfl, ?_, ?_⟩
  · have hfilter : entries.filter (fun f => strEndsWith f ".yaml") = [] := by
      simp only [List.filter_eq_nil_iff]
      intro a ha
      simp [h a ha]
    simp [list_sessions, hfilter]
  · intro es
    constructor
    · exact List.mergeSort_perm _ _
    · have htrans : ∀ a b c : String,
          decide (a ≤ b) = true → decide (b ≤ c) = true → decide (a ≤ c) = true := by
        intro a b c hab hbc
        simp only [decide_eq_true_eq] at *
        exact le_trans hab hbc
      have htotal : ∀ a b : String, (decide (a ≤ b) || decide (b ≤ a)) = true := by
        intro a b
        simpa using le_total a b
      have := List.sorted_mergeSort htrans htotal
        (es.filter (fun f => strEndsWith f ".yaml"))
      exact this.imp (fun hab => of_decide_eq_true hab)

/-- C10 witness: a listing with no `.yaml` entries yields the empty
sequence, indistinguishable from `list_sessions` of a failed listing. -/
theorem C10_list_sessions_witness :
    list_sessions none = [] ∧ list_sessions (some ["notes.txt", "README.md"]) = [] :=
  ⟨(C10_list_sessions_total_sorted ["notes.txt", "README.md"] (by decide)).1,
   (C10_list_sessions_total_sorted ["notes.txt", "README.md"] (by decide)).2.1⟩

end AiShell
